import Mathlib

/-!
Shallow embedding of the VidSquad frontend orchestrator
(`src/frontend/src/app/App.tsx`).

The component keeps four pieces of React state:
`currentScreen : 'input' | 'progress' | 'download'`, `jobData : JobData | null`,
`error : string`, plus the poll interval created by `handleInputSubmit`.
We model the interval by a Boolean `timerActive` together with the job id the
tick closure captured (`result.job_id`), recorded in `pollJobId`.

Events are the handler invocations the UI can cause, each atomic:
a submission whose remote `generateVideo` call succeeds or fails, a poll tick
whose `checkStatus` call returns a response or throws, and the
`handleCreateNew` reset wired to the Download screen.
-/

namespace VidSquad

/-- The `result` payload of a completed job (`JobData.result` in App.tsx). -/
structure ResultBundle where
  premiere_url : String
  capcut_url : String
  clips_count : Int
  images_count : Int
  expires_at : String
deriving DecidableEq, Repr

/-- The `JobData` interface of App.tsx; optional TS fields become `Option`. -/
structure JobData where
  jobId : String
  status : String
  progress : Int
  currentStep : Option String
  etaSeconds : Option Int
  error : Option String
  result : Option ResultBundle
deriving DecidableEq, Repr

/-- A successful `checkStatus` response body, fields as read by the tick. -/
structure StatusResponse where
  status : String
  progress : Int
  current_step : Option String
  eta_seconds : Option Int
  error : Option String
  result : Option ResultBundle
deriving DecidableEq, Repr

/-- The `Screen` union type of App.tsx (auth removed). -/
inductive Screen where
  | input
  | progress
  | download
deriving DecidableEq, Repr

/-- JavaScript `o || d` for an optional string: `undefined` and the empty
string are falsy, any other string is returned as-is. -/
def jsOrString (o : Option String) (d : String) : String :=
  match o with
  | some s => if s = "" then d else s
  | none => d

/-- JavaScript `o || d` for an optional number: `undefined` and `0` are
falsy. -/
def jsOrInt (o : Option Int) (d : Int) : Int :=
  match o with
  | some n => if n = 0 then d else n
  | none => d

/-- The `durationMap` object literal in `handleInputSubmit`:
indexing returns the mapped value or `undefined`. -/
def durationMapLookup (d : String) : Option Int :=
  if d = "6-9" then some 450
  else if d = "10-12" then some 660
  else if d = "18-20" then some 1140
  else if d = "30-40" then some 2100
  else none

/-- `const durationSeconds = durationMap[duration] || 2100`. -/
def durationResolve (d : String) : Int :=
  jsOrInt (durationMapLookup d) 2100

/-- The title argument passed to `generateVideo`: `title || 'Untitled Video'`. -/
def submittedTitle (title : String) : String :=
  jsOrString (some title) "Untitled Video"

/-- Component state: React state plus the poll interval (`timerActive`) and
the job id the tick closure captured (`pollJobId`). -/
structure AppState where
  currentScreen : Screen
  jobData : Option JobData
  error : String
  timerActive : Bool
  pollJobId : String
deriving DecidableEq, Repr

/-- Initial state: `useState<Screen>('input')`, `useState(null)`,
`useState('')`, no interval. -/
def initState : AppState :=
  { currentScreen := Screen.input
  , jobData := none
  , error := ""
  , timerActive := false
  , pollJobId := "" }

/-- Outcome of the awaited `generateVideo` call: success carries `job_id`,
failure carries the thrown error's optional `message`. -/
inductive SubmitOutcome where
  | ok (job_id : String)
  | err (message : Option String)
deriving DecidableEq, Repr

/-- The atomic events: `handleInputSubmit` with its arguments and remote
outcome, a poll tick (`none` = `checkStatus` threw), and `handleCreateNew`. -/
inductive Event where
  | submit (script durationLabel title : String) (outcome : SubmitOutcome)
  | tick (response : Option StatusResponse)
  | reset
deriving DecidableEq, Repr

/-- The record passed to `setJobData` right after submission:
`{jobId, status: 'queued', progress: 0, currentStep: 'Starting...'}`,
the other optional fields left undefined. -/
def initialJob (jobId : String) : JobData :=
  { jobId := jobId
  , status := "queued"
  , progress := 0
  , currentStep := some "Starting..."
  , etaSeconds := none
  , error := none
  , result := none }

/-- The record passed to `setJobData` in a successful tick: every field is
taken verbatim from the response, `jobId` from the closure-captured
`result.job_id`. -/
def responseJob (jobId : String) (r : StatusResponse) : JobData :=
  { jobId := jobId
  , status := r.status
  , progress := r.progress
  , currentStep := r.current_step
  , etaSeconds := r.eta_seconds
  , error := r.error
  , result := r.result }

/-- The render guard of the Download screen:
`currentScreen === 'download' && jobData?.result`. -/
def downloadRendered (s : AppState) : Bool :=
  match s.currentScreen, s.jobData with
  | Screen.download, some j => j.result.isSome
  | _, _ => false

/-- One event applied to the state; `none` when the event cannot occur there
(the handler is not wired to any rendered element, or no interval is live).
- `submit` is only reachable from the Input screen
  (`currentScreen === 'input' && <InputScreen onSubmit=.../>`); it first runs
  `setError('')`, then on success seeds `jobData`, moves to the progress
  screen and starts the interval bound to `result.job_id`, while on failure
  it runs `setError(err.message || 'Failed to start video generation')` and
  touches nothing else.
- `tick` fires only while the interval is live; a throw is swallowed, a
  response replaces `jobData` wholesale, then `completed` clears the interval
  and shows the download screen, `failed` clears the interval and writes
  `status.error || 'Video generation failed'` to the error slot.
- `reset` is wired only to the Download screen's `onCreateNew`; it clears
  `jobData` and `error` and returns to the input screen. -/
def step (s : AppState) (e : Event) : Option AppState :=
  match e with
  | Event.submit _script _durationLabel _title outcome =>
    if s.currentScreen = Screen.input then
      match outcome with
      | SubmitOutcome.ok jobId =>
        some { s with
          error := ""
          jobData := some (initialJob jobId)
          currentScreen := Screen.progress
          timerActive := true
          pollJobId := jobId }
      | SubmitOutcome.err msg =>
        some { s with error := jsOrString msg "Failed to start video generation" }
    else none
  | Event.tick response =>
    if s.timerActive then
      match response with
      | none => some s
      | some r =>
        let s1 := { s with jobData := some (responseJob s.pollJobId r) }
        if r.status = "completed" then
          some { s1 with timerActive := false, currentScreen := Screen.download }
        else if r.status = "failed" then
          some { s1 with
            timerActive := false
            error := jsOrString r.error "Video generation failed" }
        else
          some s1
    else none
  | Event.reset =>
    if downloadRendered s then
      some { s with jobData := none, error := "", currentScreen := Screen.input }
    else none

/-- Which screen the JSX actually renders: each branch carries its guard,
so a `download` screen with a missing result renders nothing (`blank`). -/
inductive Rendered where
  | input
  | progress
  | download
  | blank
deriving DecidableEq, Repr

/-- Derived screen state, read off the three JSX guards. -/
def renderedScreen (s : AppState) : Rendered :=
  match s.currentScreen, s.jobData with
  | Screen.input, _ => Rendered.input
  | Screen.progress, some _ => Rendered.progress
  | Screen.progress, none => Rendered.blank
  | Screen.download, some j =>
    if j.result.isSome then Rendered.download else Rendered.blank
  | Screen.download, none => Rendered.blank

/-- The props the ProgressScreen element receives. -/
structure ProgressProps where
  progress : Int
  currentStep : String
  etaSeconds : Int
  error : String
deriving DecidableEq, Repr

/-- `<ProgressScreen progress={jobData.progress}
currentStep={jobData.currentStep || 'Processing...'}
etaSeconds={jobData.etaSeconds || 0} error={error} />`. -/
def progressProps (j : JobData) (err : String) : ProgressProps :=
  { progress := j.progress
  , currentStep := jsOrString j.currentStep "Processing..."
  , etaSeconds := jsOrInt j.etaSeconds 0
  , error := err }

/-- The ProgressScreen render: guarded by
`currentScreen === 'progress' && jobData`. -/
def renderProgress (s : AppState) : Option ProgressProps :=
  match s.currentScreen, s.jobData with
  | Screen.progress, some j => some (progressProps j s.error)
  | _, _ => none

/-- Run a list of events in order; `none` as soon as one cannot occur. -/
def runEvents (s : AppState) : List Event → Option AppState
  | [] => some s
  | e :: rest =>
    match step s e with
    | some s' => runEvents s' rest
    | none => none

/-- States reachable from the initial state by the event handlers. -/
inductive Reachable : AppState → Prop where
  | init : Reachable initState
  | next {s s' : AppState} {e : Event} :
      Reachable s → step s e = some s' → Reachable s'

/-- The state invariant: a live interval means the progress screen is current
and a job record exists; on the input screen there is no job record; and any
job record carries the captured poll job id. -/
def Inv (s : AppState) : Prop :=
  (s.timerActive = true → s.currentScreen = Screen.progress ∧ s.jobData.isSome = true) ∧
  (s.currentScreen = Screen.input → s.jobData = none) ∧
  (∀ j, s.jobData = some j → j.jobId = s.pollJobId)

lemma inv_init : Inv initState := by
  refine ⟨?_, ?_, ?_⟩ <;> simp [initState]

lemma inv_step {s s' : AppState} {e : Event} (hI : Inv s) (h : step s e = some s') :
    Inv s' := by
  obtain ⟨h1, h2, h3⟩ := hI
  cases e with
  | submit script durationLabel title outcome =>
    simp only [step] at h
    split at h
    case isFalse => exact absurd h (by simp)
    case isTrue hin =>
      cases outcome with
      | ok jobId =>
        injection h with h
        subst h
        refine ⟨fun _ => ⟨rfl, rfl⟩, by simp, ?_⟩
        intro j hj
        simp only [Option.some.injEq] at hj
        subst hj
        rfl
      | err msg =>
        injection h with h
        subst h
        exact ⟨fun ht => absurd ((h1 ht).1) (by simp [hin]), h2, h3⟩
  | tick response =>
    simp only [step] at h
    split at h
    case isFalse => exact absurd h (by simp)
    case isTrue ht =>
      obtain ⟨hscr, hjd⟩ := h1 ht
      cases response with
      | none =>
        injection h with h
        subst h
        exact ⟨fun hta => ⟨hscr, hjd⟩, h2, h3⟩
      | some r =>
        simp only at h
        split at h
        case isTrue hc =>
          injection h with h
          subst h
          refine ⟨by simp, by simp, ?_⟩
          intro j hj
          simp only [Option.some.injEq] at hj
          subst hj
          rfl
        case isFalse hc =>
          split at h
          case isTrue hf =>
            injection h with h
            subst h
            refine ⟨by simp, by simp [hscr], ?_⟩
            intro j hj
            simp only [Option.some.injEq] at hj
            subst hj
            rfl
          case isFalse hf =>
            injection h with h
            subst h
            refine ⟨fun _ => ⟨hscr, by simp⟩, by simp [hscr], ?_⟩
            intro j hj
            simp only [Option.some.injEq] at hj
            subst hj
            rfl
  | reset =>
    simp only [step] at h
    split at h
    case isFalse => exact absurd h (by simp)
    case isTrue hdl =>
      injection h with h
      subst h
      have hscr : s.currentScreen = Screen.download := by
        unfold downloadRendered at hdl
        revert hdl
        match s.currentScreen, s.jobData with
        | Screen.download, some j => intro _; rfl
        | Screen.download, none => intro hdl; exact absurd hdl (by simp)
        | Screen.input, _ => intro hdl; exact absurd hdl (by simp)
        | Screen.progress, _ => intro hdl; exact absurd hdl (by simp)
      refine ⟨fun hta => absurd ((h1 hta).1) (by simp [hscr]), by simp, by simp⟩

lemma reachable_inv {s : AppState} (h : Reachable s) : Inv s := by
  induction h with
  | init => exact inv_init
  | next _ hstep ih => exact inv_step ih hstep

/-- Characterization of a tick that received a response: the interval was
live, the job record is replaced wholesale, and the three status branches. -/
lemma step_tick_some {s s' : AppState} {r : StatusResponse}
    (h : step s (Event.tick (some r)) = some s') :
    s.timerActive = true ∧
    ((r.status = "completed" ∧
        s' = { s with
          jobData := some (responseJob s.pollJobId r)
          timerActive := false
          currentScreen := Screen.download }) ∨
     (r.status ≠ "completed" ∧ r.status = "failed" ∧
        s' = { s with
          jobData := some (responseJob s.pollJobId r)
          timerActive := false
          error := jsOrString r.error "Video generation failed" }) ∨
     (r.status ≠ "completed" ∧ r.status ≠ "failed" ∧
        s' = { s with jobData := some (responseJob s.pollJobId r) })) := by
  simp only [step] at h
  split at h
  case isFalse => exact absurd h (by simp)
  case isTrue ht =>
    refine ⟨ht, ?_⟩
    split at h
    case isTrue hc =>
      injection h with h
      exact Or.inl ⟨hc, h.symm⟩
    case isFalse hc =>
      split at h
      case isTrue hf =>
        injection h with h
        exact Or.inr (Or.inl ⟨hc, hf, h.symm⟩)
      case isFalse hf =>
        injection h with h
        exact Or.inr (Or.inr ⟨hc, hf, h.symm⟩)

/-- A tick with no interval live cannot occur. -/
lemma step_tick_none_of_inactive {s : AppState} (ht : s.timerActive = false)
    (r : Option StatusResponse) : step s (Event.tick r) = none := by
  simp [step, ht]

/-- Characterization of a successful submission. -/
lemma step_submit_ok {s s' : AppState} {script durationLabel title jobId : String}
    (h : step s (Event.submit script durationLabel title (SubmitOutcome.ok jobId)) = some s') :
    s.currentScreen = Screen.input ∧
    s' = { s with
      error := ""
      jobData := some (initialJob jobId)
      currentScreen := Screen.progress
      timerActive := true
      pollJobId := jobId } := by
  simp only [step] at h
  split at h
  case isTrue hin => injection h with h; exact ⟨hin, h.symm⟩
  case isFalse => exact absurd h (by simp)

/-- Characterization of a failed submission. -/
lemma step_submit_err {s s' : AppState} {script durationLabel title : String}
    {msg : Option String}
    (h : step s (Event.submit script durationLabel title (SubmitOutcome.err msg)) = some s') :
    s.currentScreen = Screen.input ∧
    s' = { s with error := jsOrString msg "Failed to start video generation" } := by
  simp only [step] at h
  split at h
  case isTrue hin => injection h with h; exact ⟨hin, h.symm⟩
  case isFalse => exact absurd h (by simp)

/-- Characterization of the reset action. -/
lemma step_reset_eq {s s' : AppState} (h : step s Event.reset = some s') :
    downloadRendered s = true ∧
    s' = { s with jobData := none, error := "", currentScreen := Screen.input } := by
  simp only [step] at h
  split at h
  case isTrue hdl => injection h with h; exact ⟨hdl, h.symm⟩
  case isFalse => exact absurd h (by simp)

/-- The Download render guard, unfolded. -/
lemma downloadRendered_iff (s : AppState) :
    downloadRendered s = true ↔
      s.currentScreen = Screen.download ∧
        ∃ j, s.jobData = some j ∧ j.result.isSome = true := by
  unfold downloadRendered
  rcases hcs : s.currentScreen <;> rcases hjd : s.jobData with _ | j <;> simp [hcs, hjd]

/-- On the input screen the JSX renders the InputScreen. -/
lemma renderedScreen_input {s : AppState} (h : s.currentScreen = Screen.input) :
    renderedScreen s = Rendered.input := by
  unfold renderedScreen
  rw [h]

/-- On the progress screen with a job record the JSX renders the
ProgressScreen. -/
lemma renderedScreen_progress {s : AppState} {j : JobData}
    (h : s.currentScreen = Screen.progress) (hj : s.jobData = some j) :
    renderedScreen s = Rendered.progress := by
  unfold renderedScreen
  rw [h, hj]

/-- The DownloadScreen renders exactly when the screen is `download` and the
job record carries a result. -/
lemma renderedScreen_download_iff (s : AppState) :
    renderedScreen s = Rendered.download ↔
      s.currentScreen = Screen.download ∧
        ∃ j, s.jobData = some j ∧ j.result.isSome = true := by
  unfold renderedScreen
  rcases hcs : s.currentScreen <;> rcases hjd : s.jobData with _ | j <;>
    simp [hcs, hjd]
  by_cases hr : j.result.isSome = true
  · simp [hr, Option.isSome_iff_ne_none.mp hr]
  · simp [hr, Option.not_isSome_iff_eq_none.mp hr]

/-- A transient poll failure leaves the state untouched and the loop live. -/
lemma runEvents_replicate_failures {s : AppState} (hta : s.timerActive = true) :
    ∀ n : Nat, runEvents s (List.replicate n (Event.tick none)) = some s := by
  intro n
  induction n with
  | zero => rfl
  | succ m ih =>
    simp only [List.replicate_succ, runEvents, step, hta, if_true]
    exact ih

/-- Running a concatenation of event lists. -/
lemma runEvents_append (s : AppState) (l1 l2 : List Event) :
    runEvents s (l1 ++ l2) =
      match runEvents s l1 with
      | some s' => runEvents s' l2
      | none => none := by
  induction l1 generalizing s with
  | nil => rfl
  | cons e rest ih =>
    simp only [List.cons_append, runEvents]
    cases step s e <;> simp [ih]

/-! Concrete states used by the witnesses, reached by running the machine. -/

/-- A concrete result payload. -/
def exBundle : ResultBundle :=
  { premiere_url := "https://x/p.zip"
  , capcut_url := "https://x/c.zip"
  , clips_count := 3
  , images_count := 2
  , expires_at := "2026-01-01" }

/-- A `completed` response carrying a result. -/
def exCompleted : StatusResponse :=
  { status := "completed", progress := 100, current_step := none
  , eta_seconds := none, error := none, result := some exBundle }

/-- A `failed` response carrying an error message. -/
def exFailed : StatusResponse :=
  { status := "failed", progress := 40, current_step := none
  , eta_seconds := none, error := some "boom", result := none }

/-- A `processing` response. -/
def exProcessing : StatusResponse :=
  { status := "processing", progress := 55, current_step := some "Rendering"
  , eta_seconds := some 120, error := none, result := none }

/-- A response whose status is the differently-cased string `Completed`. -/
def exCased : StatusResponse :=
  { status := "Completed", progress := 90, current_step := none
  , eta_seconds := none, error := none, result := some exBundle }

/-- The state right after a successful submission of job `job-1`. -/
def exProgressState : AppState :=
  { currentScreen := Screen.progress
  , jobData := some (initialJob "job-1")
  , error := ""
  , timerActive := true
  , pollJobId := "job-1" }

/-- The state after the `completed` response is applied. -/
def exDownloadState : AppState :=
  { currentScreen := Screen.download
  , jobData := some (responseJob "job-1" exCompleted)
  , error := ""
  , timerActive := false
  , pollJobId := "job-1" }

/-- The state after the `failed` response is applied. -/
def exFailedState : AppState :=
  { currentScreen := Screen.progress
  , jobData := some (responseJob "job-1" exFailed)
  , error := "boom"
  , timerActive := false
  , pollJobId := "job-1" }

/-- The state after reset from the download screen. -/
def exResetState : AppState :=
  { currentScreen := Screen.input
  , jobData := none
  , error := ""
  , timerActive := false
  , pollJobId := "job-1" }

lemma reach_exProgressState : Reachable exProgressState :=
  @Reachable.next initState exProgressState
    (Event.submit "a script" "6-9" "My Title" (SubmitOutcome.ok "job-1"))
    Reachable.init (by decide)

lemma reach_exDownloadState : Reachable exDownloadState :=
  @Reachable.next exProgressState exDownloadState
    (Event.tick (some exCompleted)) reach_exProgressState (by decide)

/-! The claims. -/

/-- C1: In every reachable state, a rendered Download screen implies the job
record carries a result; while the poll interval is live the Download screen
is never rendered (so it is never shown before the terminal response); and a
poll tick makes the Download screen rendered exactly when its response has
status `completed` and a present result — never when the result is absent. -/
theorem download_screen_requires_result (s : AppState) (hre : Reachable s) :
    (renderedScreen s = Rendered.download →
      ∃ j r, s.jobData = some j ∧ j.result = some r) ∧
    (s.timerActive = true → renderedScreen s ≠ Rendered.download) ∧
    (∀ resp s', step s (Event.tick (some resp)) = some s' →
      (renderedScreen s' = Rendered.download ↔
        resp.status = "completed" ∧ resp.result.isSome = true)) := by
  obtain ⟨h1, h2, h3⟩ := reachable_inv hre
  refine ⟨?_, ?_, ?_⟩
  · intro hd
    obtain ⟨-, j, hj, hr⟩ := (renderedScreen_download_iff s).mp hd
    obtain ⟨r, hr⟩ := Option.isSome_iff_exists.mp hr
    exact ⟨j, r, hj, hr⟩
  · intro hta hd
    obtain ⟨hcs, -⟩ := (renderedScreen_download_iff s).mp hd
    rw [(h1 hta).1] at hcs
    exact absurd hcs (by simp)
  · intro resp s' hstep
    obtain ⟨hta, hcases⟩ := step_tick_some hstep
    obtain ⟨hscr, hjd⟩ := h1 hta
    rcases hcases with ⟨hc, rfl⟩ | ⟨hc, hf, rfl⟩ | ⟨hc, hf, rfl⟩
    · rw [renderedScreen_download_iff]
      constructor
      · rintro ⟨-, j, hj, hr⟩
        injection hj with hj
        subst hj
        exact ⟨hc, hr⟩
      · rintro ⟨-, hres⟩
        exact ⟨rfl, responseJob s.pollJobId resp, rfl, hres⟩
    · rw [renderedScreen_download_iff]
      simp only [hscr]
      simp [hc]
    · rw [renderedScreen_download_iff]
      simp only [hscr]
      simp [hc]

/-- C1 witness: from the reachable post-submission state, the tick carrying
the `completed` response with a result makes the Download screen rendered. -/
theorem download_screen_requires_result_witness :
    renderedScreen exDownloadState = Rendered.download := by
  have h := download_screen_requires_result exProgressState reach_exProgressState
  exact (h.2.2 exCompleted exDownloadState (by decide)).mpr ⟨rfl, rfl⟩

/-- C2: Reset, invoked from any reachable state where it is wired (the
Download screen), leaves no job record, an empty error slot, the Input
screen rendered, and no live interval, so no tick of the old session can be
applied afterward. -/
theorem reset_clears_session (s s' : AppState) (hre : Reachable s)
    (h : step s Event.reset = some s') :
    s'.jobData = none ∧ s'.error = "" ∧ s'.currentScreen = Screen.input ∧
    renderedScreen s' = Rendered.input ∧ s'.timerActive = false ∧
    step s' (Event.tick none) = none ∧
    (∀ resp, step s' (Event.tick (some resp)) = none) := by
  obtain ⟨h1, h2, h3⟩ := reachable_inv hre
  obtain ⟨hdl, rfl⟩ := step_reset_eq h
  obtain ⟨hcs, -⟩ := (downloadRendered_iff s).mp hdl
  have hta : s.timerActive = false := by
    cases hta : s.timerActive
    · rfl
    · rw [(h1 hta).1] at hcs
      exact absurd hcs (by simp)
  refine ⟨rfl, rfl, rfl, renderedScreen_input rfl, hta, ?_, ?_⟩
  · exact @step_tick_none_of_inactive
      { s with jobData := none, error := "", currentScreen := Screen.input }
      hta none
  · intro resp
    exact @step_tick_none_of_inactive
      { s with jobData := none, error := "", currentScreen := Screen.input }
      hta (some resp)

/-- C2 witness: reset from the concrete reachable download state. -/
theorem reset_clears_session_witness :
    exResetState.jobData = none ∧ exResetState.error = "" ∧
    exResetState.currentScreen = Screen.input ∧
    renderedScreen exResetState = Rendered.input ∧
    exResetState.timerActive = false ∧
    step exResetState (Event.tick none) = none ∧
    step exResetState (Event.tick (some exCompleted)) = none := by
  have h := reset_clears_session exDownloadState exResetState
    reach_exDownloadState (by decide)
  exact ⟨h.1, h.2.1, h.2.2.1, h.2.2.2.1, h.2.2.2.2.1, h.2.2.2.2.2.1,
    h.2.2.2.2.2.2 exCompleted⟩

/-- C3: A submission whose creation request succeeds with `jobId` yields the
job record `{jobId, status: queued, progress: 0, currentStep: Starting...}`
with the optional fields absent, an empty error slot, the Progress screen,
and the poll loop live and bound to that `jobId`. -/
theorem submit_success_state (s s' : AppState)
    (script durationLabel title jobId : String)
    (h : step s (Event.submit script durationLabel title
      (SubmitOutcome.ok jobId)) = some s') :
    s'.jobData = some
      { jobId := jobId, status := "queued", progress := 0
      , currentStep := some "Starting...", etaSeconds := none
      , error := none, result := none } ∧
    s'.error = "" ∧ s'.currentScreen = Screen.progress ∧
    s'.timerActive = true ∧ s'.pollJobId = jobId ∧
    renderedScreen s' = Rendered.progress := by
  obtain ⟨hin, rfl⟩ := step_submit_ok h
  exact ⟨rfl, rfl, rfl, rfl, rfl, renderedScreen_progress rfl rfl⟩

/-- C3 witness: the concrete submission from the initial state. -/
theorem submit_success_state_witness :
    exProgressState.jobData = some
      { jobId := "job-1", status := "queued", progress := 0
      , currentStep := some "Starting...", etaSeconds := none
      , error := none, result := none } ∧
    exProgressState.error = "" ∧
    exProgressState.currentScreen = Screen.progress ∧
    exProgressState.timerActive = true ∧
    exProgressState.pollJobId = "job-1" ∧
    renderedScreen exProgressState = Rendered.progress :=
  submit_success_state initState exProgressState
    "a script" "6-9" "My Title" "job-1" (by decide)

/-- C4: A tick whose response has status `failed` stops the interval (no
further tick can occur in this session), writes the response's error message
— or the default `Video generation failed` when none is provided — to the
error slot, and stays on the Progress screen. -/
theorem failed_poll_halts (s s' : AppState) (resp : StatusResponse)
    (hre : Reachable s) (hst : resp.status = "failed")
    (h : step s (Event.tick (some resp)) = some s') :
    s'.timerActive = false ∧
    step s' (Event.tick none) = none ∧
    (∀ r2, step s' (Event.tick (some r2)) = none) ∧
    (∀ m, resp.error = some m → m ≠ "" → s'.error = m) ∧
    (resp.error = none → s'.error = "Video generation failed") ∧
    s'.currentScreen = Screen.progress ∧
    renderedScreen s' = Rendered.progress := by
  obtain ⟨h1, h2, h3⟩ := reachable_inv hre
  obtain ⟨hta, hcases⟩ := step_tick_some h
  have hscr := (h1 hta).1
  rcases hcases with ⟨hc, rfl⟩ | ⟨hc, hf, rfl⟩ | ⟨hc, hf, rfl⟩
  · rw [hst] at hc
    exact absurd hc (by simp)
  · refine ⟨rfl, step_tick_none_of_inactive rfl none,
      fun r2 => step_tick_none_of_inactive rfl (some r2), ?_, ?_, hscr,
      renderedScreen_progress hscr rfl⟩
    · intro m hm hne
      simp [jsOrString, hm, hne]
    · intro hm
      simp [jsOrString, hm]
  · rw [hst] at hf
    exact absurd rfl hf

/-- C4 witness: the concrete failed response applied to the reachable
post-submission state. -/
theorem failed_poll_halts_witness :
    exFailedState.timerActive = false ∧
    step exFailedState (Event.tick none) = none ∧
    step exFailedState (Event.tick (some exFailed)) = none ∧
    exFailedState.error = "boom" ∧
    exFailedState.currentScreen = Screen.progress ∧
    renderedScreen exFailedState = Rendered.progress := by
  have h := failed_poll_halts exProgressState exFailedState exFailed
    reach_exProgressState rfl (by decide)
  exact ⟨h.1, h.2.1, h.2.2.1 exFailed, h.2.2.2.1 "boom" rfl (by decide),
    h.2.2.2.2.2.1, h.2.2.2.2.2.2⟩

/-- C5: A submission whose creation request fails writes the thrown message
— or the default `Failed to start video generation` when none is provided —
to the error slot, creates no job record (it was and stays null), and leaves
the screen unchanged on Input. -/
theorem submit_failure_state (s s' : AppState)
    (script durationLabel title : String) (msg : Option String)
    (hre : Reachable s)
    (h : step s (Event.submit script durationLabel title
      (SubmitOutcome.err msg)) = some s') :
    (∀ m, msg = some m → m ≠ "" → s'.error = m) ∧
    (msg = none → s'.error = "Failed to start video generation") ∧
    s.jobData = none ∧ s'.jobData = none ∧
    s'.currentScreen = s.currentScreen ∧ s'.currentScreen = Screen.input ∧
    renderedScreen s' = Rendered.input ∧ s'.timerActive = false := by
  obtain ⟨h1, h2, h3⟩ := reachable_inv hre
  obtain ⟨hin, rfl⟩ := step_submit_err h
  have hjd := h2 hin
  have hta : s.timerActive = false := by
    cases hta : s.timerActive
    · rfl
    · rw [(h1 hta).1] at hin
      exact absurd hin (by simp)
  refine ⟨?_, ?_, hjd, hjd, rfl, hin, renderedScreen_input hin, hta⟩
  · intro m hm hne
    simp [jsOrString, hm, hne]
  · intro hm
    simp [jsOrString, hm]

/-- C5 witness: a failed submission from the initial state with message
`no server`. -/
theorem submit_failure_state_witness :
    AppState.error { initState with error := "no server" } = "no server" ∧
    AppState.jobData { initState with error := "no server" } = none ∧
    AppState.currentScreen { initState with error := "no server" } =
      Screen.input ∧
    renderedScreen { initState with error := "no server" } = Rendered.input ∧
    AppState.timerActive { initState with error := "no server" } = false := by
  have h := submit_failure_state initState
    { initState with error := "no server" }
    "a script" "6-9" "" (some "no server") Reachable.init (by decide)
  exact ⟨h.1 "no server" rfl (by decide), h.2.2.2.1, h.2.2.2.2.2.1,
    h.2.2.2.2.2.2.1, h.2.2.2.2.2.2.2⟩

/-- The state after a `processing` response is applied to the
post-submission state. -/
def exProcessingState : AppState :=
  { currentScreen := Screen.progress
  , jobData := some (responseJob "job-1" exProcessing)
  , error := ""
  , timerActive := true
  , pollJobId := "job-1" }

/-- The state after the `Completed` (differently-cased) response is applied. -/
def exCasedState : AppState :=
  { currentScreen := Screen.progress
  , jobData := some (responseJob "job-1" exCased)
  , error := ""
  , timerActive := true
  , pollJobId := "job-1" }

/-- C6: N consecutive transient fetch failures (the `checkStatus` call
throws) leave the whole state untouched and the loop live — no back-off, no
retry ceiling — and a following successful `processing` response updates the
job record while the screen, error slot and interval are unchanged. -/
theorem transient_failures_tolerated (s : AppState) (n : Nat)
    (resp : StatusResponse) (hre : Reachable s) (hta : s.timerActive = true)
    (hn : 1 ≤ n) (hst : resp.status = "processing") :
    runEvents s (List.replicate n (Event.tick none)) = some s ∧
    runEvents s
      (List.replicate n (Event.tick none) ++ [Event.tick (some resp)]) =
      some { s with jobData := some (responseJob s.pollJobId resp) } ∧
    AppState.timerActive
      { s with jobData := some (responseJob s.pollJobId resp) } = true ∧
    AppState.error
      { s with jobData := some (responseJob s.pollJobId resp) } = s.error ∧
    AppState.currentScreen
      { s with jobData := some (responseJob s.pollJobId resp) } =
      s.currentScreen := by
  have hrep := runEvents_replicate_failures hta n
  refine ⟨hrep, ?_, hta, rfl, rfl⟩
  rw [runEvents_append, hrep]
  simp [runEvents, step, hta, hst]

/-- C6 witness: two transient failures then the `processing` response. -/
theorem transient_failures_tolerated_witness :
    runEvents exProgressState (List.replicate 2 (Event.tick none)) =
      some exProgressState ∧
    runEvents exProgressState
      (List.replicate 2 (Event.tick none) ++
        [Event.tick (some exProcessing)]) =
      some exProcessingState ∧
    exProcessingState.timerActive = true := by
  have h := transient_failures_tolerated exProgressState 2 exProcessing
    reach_exProgressState rfl (by decide) rfl
  exact ⟨h.1, h.2.1, h.2.2.1⟩

/-- C7: Every successful poll response replaces the job record wholesale:
the new record is exactly the response's fields, with each optional field
absent when absent from the response, and `jobId` is the closure-captured
submission id — which also equals the previous record's id, so it never
changes after submission. -/
theorem poll_replaces_wholesale (s s' : AppState) (resp : StatusResponse)
    (hre : Reachable s)
    (h : step s (Event.tick (some resp)) = some s') :
    s'.jobData = some
      { jobId := s.pollJobId, status := resp.status
      , progress := resp.progress, currentStep := resp.current_step
      , etaSeconds := resp.eta_seconds, error := resp.error
      , result := resp.result } ∧
    s'.pollJobId = s.pollJobId ∧
    (∀ j, s.jobData = some j → j.jobId = s.pollJobId) ∧
    (∀ j', s'.jobData = some j' → j'.jobId = s.pollJobId) := by
  obtain ⟨-, -, h3⟩ := reachable_inv hre
  obtain ⟨hta, hcases⟩ := step_tick_some h
  rcases hcases with ⟨hc, rfl⟩ | ⟨hc, hf, rfl⟩ | ⟨hc, hf, rfl⟩ <;>
    refine ⟨rfl, rfl, h3, ?_⟩ <;>
    · intro j' hj'
      have hj2 : some (responseJob s.pollJobId resp) = some j' := hj'
      injection hj2 with hj2
      rw [← hj2]
      rfl

/-- C7 witness: the `completed` response applied to the post-submission
state replaces the record verbatim. -/
theorem poll_replaces_wholesale_witness :
    exDownloadState.jobData = some
      { jobId := "job-1", status := "completed", progress := 100
      , currentStep := none, etaSeconds := none, error := none
      , result := some exBundle } ∧
    exDownloadState.pollJobId = "job-1" := by
  have h := poll_replaces_wholesale exProgressState exDownloadState
    exCompleted reach_exProgressState (by decide)
  exact ⟨h.1, h.2.1⟩

/-- C8: The duration resolver maps the four known labels to 450, 660, 1140
and 2100 seconds, and any other label to 2100; it is total, so it never
fails. -/
theorem duration_resolver_table :
    durationResolve "6-9" = 450 ∧ durationResolve "10-12" = 660 ∧
    durationResolve "18-20" = 1140 ∧ durationResolve "30-40" = 2100 ∧
    ∀ d : String, d ≠ "6-9" → d ≠ "10-12" → d ≠ "18-20" → d ≠ "30-40" →
      durationResolve d = 2100 := by
  refine ⟨by decide, by decide, by decide, by decide, ?_⟩
  intro d h1 h2 h3 h4
  simp [durationResolve, durationMapLookup, jsOrInt, h1, h2, h3, h4]

/-- C8 witness: an unrecognized label resolves to 2100. -/
theorem duration_resolver_table_witness :
    durationResolve "anything-else" = 2100 :=
  duration_resolver_table.2.2.2.2 "anything-else"
    (by decide) (by decide) (by decide) (by decide)

/-- C9: Terminal detection is exact lowercase string comparison: a tick
whose response status is neither `completed` nor `failed` — including
`Completed` and unknown values — leaves the screen and the error slot
unchanged, keeps the interval live, and a further tick can still occur. -/
theorem nonterminal_status_keeps_polling (s s' : AppState)
    (resp : StatusResponse) (hre : Reachable s)
    (hc : resp.status ≠ "completed") (hf : resp.status ≠ "failed")
    (h : step s (Event.tick (some resp)) = some s') :
    s'.currentScreen = s.currentScreen ∧ s'.error = s.error ∧
    s'.timerActive = true ∧ s'.pollJobId = s.pollJobId ∧
    renderedScreen s = Rendered.progress ∧
    renderedScreen s' = Rendered.progress ∧
    step s' (Event.tick none) = some s' := by
  obtain ⟨h1, -, -⟩ := reachable_inv hre
  obtain ⟨hta, hcases⟩ := step_tick_some h
  obtain ⟨hscr, hjd⟩ := h1 hta
  rcases hcases with ⟨hc', rfl⟩ | ⟨-, hf', rfl⟩ | ⟨-, -, rfl⟩
  · exact absurd hc' hc
  · exact absurd hf' hf
  · obtain ⟨j, hj⟩ := Option.isSome_iff_exists.mp hjd
    refine ⟨rfl, rfl, hta, rfl, renderedScreen_progress hscr hj,
      renderedScreen_progress hscr rfl, ?_⟩
    simp [step, hta]

/-- C9 witness: the differently-cased `Completed` response keeps polling. -/
theorem nonterminal_status_keeps_polling_witness :
    exCasedState.currentScreen = exProgressState.currentScreen ∧
    exCasedState.error = exProgressState.error ∧
    exCasedState.timerActive = true ∧
    renderedScreen exCasedState = Rendered.progress ∧
    step exCasedState (Event.tick none) = some exCasedState := by
  have h := nonterminal_status_keeps_polling exProgressState exCasedState
    exCased reach_exProgressState (by decide) (by decide) (by decide)
  exact ⟨h.1, h.2.1, h.2.2.1, h.2.2.2.2.2.1, h.2.2.2.2.2.2⟩

/-- A job record with both optional display fields absent. -/
def exBareJob : JobData :=
  { jobId := "job-1", status := "processing", progress := 55
  , currentStep := none, etaSeconds := none, error := none, result := none }

/-- A progress-screen state holding that record and an error message. -/
def exBareState : AppState :=
  { currentScreen := Screen.progress
  , jobData := some exBareJob
  , error := "oops"
  , timerActive := true
  , pollJobId := "job-1" }

/-- C10: Whenever the progress screen is current and a job record is
present, the ProgressScreen receives the record's progress as-is, the
current step defaulted to `Processing...` when absent, the ETA defaulted to
0 when absent, and the error slot's current message. -/
theorem progress_view_props (s : AppState) (j : JobData)
    (hsc : s.currentScreen = Screen.progress) (hj : s.jobData = some j) :
    renderProgress s = some (progressProps j s.error) ∧
    (progressProps j s.error).progress = j.progress ∧
    (progressProps j s.error).error = s.error ∧
    (j.currentStep = none →
      (progressProps j s.error).currentStep = "Processing...") ∧
    (j.etaSeconds = none → (progressProps j s.error).etaSeconds = 0) := by
  refine ⟨?_, rfl, rfl, ?_, ?_⟩
  · unfold renderProgress
    rw [hsc, hj]
  · intro hcs
    simp [progressProps, jsOrString, hcs]
  · intro he
    simp [progressProps, jsOrInt, he]

/-- C10 witness: a record with both optionals absent receives the defaults
and the error slot's message. -/
theorem progress_view_props_witness :
    renderProgress exBareState = some (progressProps exBareJob "oops") ∧
    (progressProps exBareJob "oops").progress = 55 ∧
    (progressProps exBareJob "oops").error = "oops" ∧
    (progressProps exBareJob "oops").currentStep = "Processing..." ∧
    (progressProps exBareJob "oops").etaSeconds = 0 := by
  have h := progress_view_props exBareState exBareJob rfl rfl
  exact ⟨h.1, h.2.1, h.2.2.1, h.2.2.2.1 rfl, h.2.2.2.2 rfl⟩

end VidSquad
